import Mathlib

/-!
Verification development for the trace-analysis visualization pipeline
(`trace_parser.py`): parsing of trace documents into flat records, lane
assignment by module, color resolution, hover-text construction, summary
statistics and the timeline figure.  Python values are embedded shallowly:
dicts become association lists, pandas DataFrames become lists of records,
floats become rationals, and raised exceptions become `Except` errors.
-/

/-- Scalar payload values occurring in `event_data` (JSON scalars as Python
sees them after `json.load`).  `vNull` stands for Python `None`. -/
inductive Value where
  | vNull
  | vBool (b : Bool)
  | vInt (n : Int)
  | vStr (s : String)
  deriving DecidableEq

/-- Python `str()` of a scalar, used when hover text interpolates a value. -/
def pyStr : Value → String
  | .vNull => "None"
  | .vBool b => if b then "True" else "False"
  | .vInt n => toString n
  | .vStr s => s

/-- Association-list lookup, the embedding of Python `dict[key]` /
`dict.get(key)` for string-keyed dicts (keys are unique in a dict, so
first-match lookup is faithful). -/
def alookup {α : Type} (key : String) : List (String × α) → Option α
  | [] => none
  | (k, v) :: rest => if key = k then some v else alookup key rest

/-- One entry of the `events` array of a well-formed trace file
(`timestamp`, `formatted_time`, `module_name`, `event_type`, optional
`event_data`), as consumed by `TraceParser.parse_events` (trace_parser.py
lines 73-86). -/
structure RawEvent where
  timestamp : Rat
  formatted_time : String
  module_name : String
  event_type : String
  event_data : Option (List (String × Value))
  deriving DecidableEq

/-- The `trace_info` object of the loaded document; the pipeline only ever
mentions its `total_events` entry (which `parse_events` never reads). -/
structure TraceInfo where
  total_events : Int
  deriving DecidableEq

/-- A loaded trace document: `trace_info` plus the ordered `events` array. -/
structure TraceDoc where
  trace_info : TraceInfo
  events : List RawEvent
  deriving DecidableEq

/-- One parsed event: the dict built in the loop of
`TraceParser.parse_events` (lines 74-86).  `data` holds the flattened
`event_data` entries, each key prefixed with `data_`, in the order the
entries appear in `event_data`; a missing `event_data` contributes no
entries. -/
structure Record where
  timestamp : Rat
  formatted_time : String
  module_name : String
  event_type : String
  data : List (String × Value)
  deriving DecidableEq

/-- The per-event body of the `parse_events` loop (lines 74-86). -/
def parseEvent (e : RawEvent) : Record :=
  { timestamp := e.timestamp
    formatted_time := e.formatted_time
    module_name := e.module_name
    event_type := e.event_type
    data := (e.event_data.getD []).map (fun kv => ("data_" ++ kv.1, kv.2)) }

/-- `TraceParser.parse_events` (lines 67-89): one record per entry of the
document's `events` array, in file order.  The declared
`trace_info.total_events` is never consulted.  (The `self.trace_data`
caching and the DataFrame construction carry no data-shape content and are
not modelled here; the DataFrame's rows are exactly this list.) -/
def parse_events (d : TraceDoc) : List Record := d.events.map parseEvent

/-- First-seen deduplication with an accumulator of already-seen values:
the embedding of `pandas.Series.unique`, which returns the distinct values
of a column in order of first appearance. -/
def firstSeenAux : List String → List String → List String
  | [], _ => []
  | x :: xs, seen =>
    if x ∈ seen then firstSeenAux xs seen else x :: firstSeenAux xs (x :: seen)

/-- Distinct values of a list in order of first appearance
(`pandas.Series.unique`). -/
def firstSeen (l : List String) : List String := firstSeenAux l []

/-- Position of a value in a list (first match), the embedding of the index
the dict comprehension `{module: i for i, module in enumerate(unique_modules)}`
assigns to each distinct module (line 149). -/
def posIn : List String → String → Nat
  | [], _ => 0
  | x :: xs, m => if x = m then 0 else posIn xs m + 1

/-- The module-to-lane mapping of `TraceVisualizer.prepare_data`
(lines 148-149): each `module_name` is mapped to its index among the
distinct module names in first-seen order. -/
def module_positions (records : List Record) (m : String) : Nat :=
  posIn (firstSeen (records.map Record.module_name)) m

/-- The nested `color_map` dict of `TraceParser.get_event_color`
(lines 93-111), transcribed entry for entry. -/
def color_map : List (String × List (String × String)) :=
  [("BUS_TRANSACTION",
     [("READ", "#3498db"), ("WRITE", "#e74c3c"), ("default", "#9b59b6")]),
   ("DEVICE_EVENT",
     [("READ", "#2ecc71"), ("WRITE", "#f39c12"), ("RESET", "#e67e22"),
      ("ENABLE", "#1abc9c"), ("DISABLE", "#95a5a6"), ("DEMO_EVENT", "#f1c40f"),
      ("default", "#34495e")]),
   ("IRQ_EVENT", [("default", "#8e44ad")])]

/-- `TraceParser.get_event_color` (lines 91-116).  `operation = none` embeds
Python `operation=None`; the `some op` branch tests Python truthiness
(`if operation and operation in event_colors`), under which the empty
string is falsy and a key absent from the dict fails the membership test;
both fall through to `event_colors.get('default', '#7f7f7f')`. -/
def get_event_color (event_type : String) (operation : Option String) : String :=
  let event_colors := (alookup event_type color_map).getD []
  match operation with
  | some op =>
    if op ≠ "" then
      match alookup op event_colors with
      | some c => c
      | none => (alookup "default" event_colors).getD "#7f7f7f"
    else (alookup "default" event_colors).getD "#7f7f7f"
  | none => (alookup "default" event_colors).getD "#7f7f7f"

/-- The `operation` value `prepare_data` passes to `get_event_color`
(line 155): `row.get('data_operation', None)`.  A row whose record carries
no `data_operation` entry yields Python `None`/`NaN`, and a non-string
value can never pass the dict-membership test in `get_event_color`, so
both are embedded as `none` (they take the same default branch). -/
def rowOperation (r : Record) : Option String :=
  match alookup "data_operation" r.data with
  | some (Value.vStr s) => some s
  | _ => none

/-- `pandas.notna` on an optional cell value: `none` embeds the `NaN` a
DataFrame shows where a row lacks one of the frame's columns, and `vNull`
embeds Python `None`; both fail the `pd.notna(...) and ... is not None`
test of `create_hover_text` (line 129). -/
def notna : Option Value → Bool
  | none => false
  | some .vNull => false
  | some _ => true

/-- Python `str.title()`: a cased character following an uncased one is
uppercased, every other cased character is lowercased. -/
def pyTitleAux : List Char → Bool → List Char
  | [], _ => []
  | c :: cs, prevCased =>
    (if prevCased then c.toLower else c.toUpper) :: pyTitleAux cs c.isAlpha

/-- Python `str.title()` on a string. -/
def pyTitle (s : String) : String := String.mk (pyTitleAux s.data false)

/-- Python `str.replace(pat, rep)`: replace every non-overlapping
occurrence of `pat`, scanning left to right (character-list level).  The
fuel argument only makes the recursion structural: every step consumes at
least one character, so fuel equal to the list's length (as supplied by
`replaceAll`) never runs out. -/
def replaceAllAux (pat rep : List Char) : Nat → List Char → List Char
  | _, [] => []
  | 0, l => l
  | fuel + 1, c :: cs =>
    if pat ≠ [] ∧ pat.isPrefixOf (c :: cs) then
      rep ++ replaceAllAux pat rep fuel ((c :: cs).drop pat.length)
    else c :: replaceAllAux pat rep fuel cs

/-- Python `str.replace(pat, rep)` on character lists. -/
def replaceAll (pat rep l : List Char) : List Char :=
  replaceAllAux pat rep l.length l

/-- Python `str.replace` on strings. -/
def pyReplace (s pat rep : String) : String :=
  String.mk (replaceAll pat.data rep.data s.data)

/-- Python `str.startswith`, embedded at the character-list level. -/
def strStartsWith (s pre : String) : Bool := pre.data.isPrefixOf s.data

/-- The label of one hover line (line 130):
`field.replace('data_', '').replace('_', ' ').title()`.  Note Python's
`str.replace` removes every occurrence of `data_`, not only the leading
one (`data_len_data_bytes` becomes `len_bytes`, hence label
`Len Bytes`). -/
def hoverLabel (c : String) : String :=
  pyTitle (pyReplace (pyReplace c "data_" "") "_" " ")

/-- Whether a value is one pandas stores in a numeric (float-capable)
column: an integer, or the `NaN` that a Python `None` becomes. -/
def isIntOrNull : Value → Bool
  | .vInt _ => true
  | .vNull => true
  | _ => false

/-- Whether a `data_*` column of the DataFrame built from `records` has
float64 dtype.  pandas assembles each column from the per-row cells,
writing `NaN` where a row lacks the key (and converting `None` to `NaN`);
when every cell is then numeric (integer or `NaN`) and at least one cell
is `NaN`, the column is promoted to float64 and its integers display in
float form.  A column of integers with no missing cell stays int64; any
string or boolean cell keeps the column at object dtype, where cells
display as their original Python values. -/
def columnPromoted (records : List Record) (c : String) : Bool :=
  records.all (fun r => isIntOrNull ((alookup c r.data).getD Value.vNull))
    && records.any (fun r => !notna (alookup c r.data))

/-- Python `str()` of one DataFrame cell: in a float64-promoted column a
stored integer has become a float and prints with a trailing `.0`
(modelled for the integers Python prints in fixed-point form, which
covers every traced input); in an int64 or object column the cell prints
as the stored value. -/
def pyStrCell (promoted : Bool) : Value → String
  | .vInt n => if promoted then toString n ++ ".0" else toString n
  | v => pyStr v

/-- One formatted hover line for a data field (line 131): the label and
the cell's displayed value. -/
def hoverLine (promoted : Bool) (c : String) (v : Value) : String :=
  "<b>" ++ hoverLabel c ++ ":</b> " ++ pyStrCell promoted v

/-- The three fixed header lines of the hover text (lines 120-124). -/
def hoverHeader (r : Record) : List String :=
  ["<b>Time:</b> " ++ r.formatted_time,
   "<b>Module:</b> " ++ r.module_name,
   "<b>Event Type:</b> " ++ r.event_type]

/-- `TraceParser.create_hover_text` (lines 118-133) applied to one
DataFrame row.  `cols` is `row.index`: the full column list of the frame
the row belongs to, and `promoted` records which columns the frame holds
at float64 dtype (see `columnPromoted`).  The loop keeps the columns
starting with `data_`, skips cells that are `NaN` (the record lacks the
column) or `None`, and appends one formatted line per remaining cell,
joined with `<br>`. -/
def create_hover_text (cols : List String) (promoted : String → Bool) (r : Record) : String :=
  let data_fields := cols.filter (fun c => strStartsWith c "data_")
  let extraLines := data_fields.filterMap (fun c =>
    match alookup c r.data with
    | some v => if notna (some v) then some (hoverLine (promoted c) c v) else none
    | none => none)
  String.intercalate "<br>" (hoverHeader r ++ extraLines)

/-- The `data_*` columns of the DataFrame built from a record list: the
union of the records' flattened `event_data` keys, in order of first
appearance across rows (pandas assembles columns from a list of dicts in
exactly this order). -/
def dataColumns (records : List Record) : List String :=
  firstSeen (records.map (fun r => r.data.map Prod.fst)).flatten

/-- The full column list of the prepared DataFrame at the moment
`create_hover_text` runs (line 161): the four core columns of every parsed
record, then the `data_*` columns, then the `y_position` and `color`
columns `prepare_data` has already appended. -/
def dfColumns (records : List Record) : List String :=
  ["timestamp", "formatted_time", "module_name", "event_type"]
    ++ dataColumns records ++ ["y_position", "color"]

/-- A row of the prepared DataFrame: the parsed record together with the
three columns `prepare_data` adds. -/
structure Enriched where
  record : Record
  y_position : Nat
  color : String
  hover_text : String
  deriving DecidableEq

/-- Errors of the embedded Python code, one constructor per exception
class the modelled paths can raise.  The spec's taxonomy names these
`NotFoundError` (`FileNotFoundError`), `FormatError` (`ValueError` from
`json.JSONDecodeError`, and the `KeyError` for a missing `events` key) and
`EmptyDatasetError` (the `KeyError` pandas raises when a column of an
empty frame is accessed). -/
inductive PyError where
  | fileNotFoundError (msg : String)
  | valueError (msg : String)
  | keyError (key : String)
  | typeError (msg : String)
  | attributeError (msg : String)
  deriving DecidableEq

/-- The enrichment of one row performed by `prepare_data`
(lines 147-161). -/
def enrichRecord (records : List Record) (r : Record) : Enriched :=
  { record := r
    y_position := module_positions records r.module_name
    color := get_event_color r.event_type (rowOperation r)
    hover_text := create_hover_text (dfColumns records) (columnPromoted records) r }

/-- `TraceVisualizer.prepare_data` (lines 143-161).  On an empty record
list the DataFrame has no columns at all, so the very first column access
`self.events_df['module_name']` (line 148) raises `KeyError`; otherwise
every row is enriched with its lane, color and hover text. -/
def prepare_data (records : List Record) : Except PyError (List Enriched) :=
  match records with
  | [] => .error (.keyError "module_name")
  | _ => .ok (records.map (enrichRecord records))

/-- Occurrence counts of each distinct value of a column, the embedding of
`pandas.Series.value_counts().to_dict()` (lines 231-232).  pandas orders
the dict by descending count; no modelled claim depends on that order, so
the pairs are listed in first-seen order of the values (the same
value-to-count mapping). -/
def value_counts (l : List String) : List (String × Nat) :=
  (firstSeen l).map (fun v => (v, l.count v))

/-- The `time_span` dict of the summary statistics (lines 233-237);
`end` is a Lean keyword, so that key is embedded as `stop`. -/
structure TimeSpan where
  start : String
  stop : String
  duration : Rat
  deriving DecidableEq

/-- The summary-statistics dict of `create_summary_stats`
(lines 229-238). -/
structure SummaryStats where
  total_events : Nat
  event_types : List (String × Nat)
  modules : List (String × Nat)
  time_span : TimeSpan
  deriving DecidableEq

/-- `TraceVisualizer.create_summary_stats` (lines 224-240).  The method
first prepares the data when no frame is cached (line 226-227), which on
an empty record list already raises (see `prepare_data`); the unreachable
empty branch below mirrors the `KeyError` the column access
`self.events_df['event_type']` (line 231) would raise on a cached empty
frame.  `iloc[0]` / `iloc[-1]` are the first and last records in input
order. -/
def create_summary_stats (records : List Record) : Except PyError SummaryStats :=
  match prepare_data records with
  | .error e => .error e
  | .ok _ =>
    match records with
    | [] => .error (.keyError "event_type")
    | r :: rest =>
      .ok { total_events := (r :: rest).length
            event_types := value_counts ((r :: rest).map Record.event_type)
            modules := value_counts ((r :: rest).map Record.module_name)
            time_span :=
              { start := r.formatted_time
                stop := (rest.getLastD r).formatted_time
                duration := (rest.getLastD r).timestamp - r.timestamp } }

/-- One plotted marker of the timeline figure: x-coordinate, lane,
marker color and hover text (lines 176-186). -/
structure TracePoint where
  x : Rat
  y : Nat
  color : String
  text : String
  deriving DecidableEq

/-- One `go.Scatter` trace of the figure: its legend name and its points
in row order (lines 176-189). -/
structure TraceSeries where
  name : String
  points : List TracePoint
  deriving DecidableEq

/-- The point a row contributes to its trace. -/
def pointOf (e : Enriched) : TracePoint :=
  ⟨e.record.timestamp, e.y_position, e.color, e.hover_text⟩

/-- `TraceVisualizer.create_timeline_figure` (lines 163-189): prepares the
data if needed, then adds one scatter trace per distinct `event_type` in
first-seen order (line 171), each trace holding the rows of that type in
row order.  Only the plotted series are modelled; the static layout
styling (lines 192-220) carries no data. -/
def create_timeline_figure (records : List Record) : Except PyError (List TraceSeries) :=
  match prepare_data records with
  | .error e => .error e
  | .ok enriched =>
    .ok ((firstSeen (enriched.map (fun e => e.record.event_type))).map (fun et =>
      { name := et
        points := (enriched.filter (fun e => e.record.event_type == et)).map pointOf }))

/-! ## Loading: the JSON-level model

`TraceParser.load_trace_data` (lines 56-65) and the access paths of
`parse_events` are also modelled one level lower, on raw JSON documents,
to settle the error-taxonomy claims: what the file system and `json.load`
hand the parser, and which exception each malformed shape raises. -/

/-- A parsed JSON document as `json.load` returns it: Python scalars,
lists and string-keyed dicts (dict keys are unique and in insertion
order). -/
inductive Json where
  | null
  | bool (b : Bool)
  | num (q : Rat)
  | str (s : String)
  | arr (elems : List Json)
  | obj (fields : List (String × Json))

/-- What the attempt to open and JSON-decode the trace file can find:
no file at the path, a file whose content does not decode, or a decoded
document. -/
inductive LoadInput where
  | fileMissing
  | invalidJson
  | content (doc : Json)

/-- `TraceParser.load_trace_data` (lines 56-65): re-raises
`FileNotFoundError` with its own message, turns `json.JSONDecodeError`
into `ValueError`, and otherwise returns the decoded document unchanged
(no validation, no partial load). -/
def load_trace_data (path : String) : LoadInput → Except PyError Json
  | .fileMissing => .error (.fileNotFoundError ("Trace file not found: " ++ path))
  | .invalidJson => .error (.valueError ("Invalid JSON format in file: " ++ path))
  | .content d => .ok d

/-- Python `value[key]` on a JSON value: dict lookup raising `KeyError`
for a missing key, `TypeError` when the value is not a dict. -/
def jsonGet : Json → String → Except PyError Json
  | .obj fields, key =>
    match alookup key fields with
    | some v => .ok v
    | none => .error (.keyError key)
  | .null, _ => .error (.typeError "not subscriptable")
  | .bool _, _ => .error (.typeError "not subscriptable")
  | .num _, _ => .error (.typeError "not subscriptable")
  | .str _, _ => .error (.typeError "not subscriptable")
  | .arr _, _ => .error (.typeError "not subscriptable")

/-- The `if 'event_data' in event:` flattening step (lines 82-84): the
prefixed entries `event_data` contributes to the row dict.  A present
non-dict `event_data` raises `AttributeError` at `.items()`; an absent
one contributes nothing. -/
def eventDataFields : Json → Except PyError (List (String × Json))
  | .obj fields =>
    match alookup "event_data" fields with
    | some (.obj dataFields) => .ok (dataFields.map (fun kv => ("data_" ++ kv.1, kv.2)))
    | some .null => .error (.attributeError "items")
    | some (.bool _) => .error (.attributeError "items")
    | some (.num _) => .error (.attributeError "items")
    | some (.str _) => .error (.attributeError "items")
    | some (.arr _) => .error (.attributeError "items")
    | none => .ok []
  | .null => .ok []
  | .bool _ => .ok []
  | .num _ => .ok []
  | .str _ => .ok []
  | .arr _ => .ok []

/-- The body of the `parse_events` loop (lines 74-86) on a raw JSON event:
reads the four required keys (raising `KeyError` on the first missing
one), then appends the flattened `event_data` entries.  The result is the
row dict, values still raw JSON (the loop copies values without
conversion). -/
def parse_event_json (e : Json) : Except PyError (List (String × Json)) :=
  match jsonGet e "timestamp" with
  | .error err => .error err
  | .ok ts =>
  match jsonGet e "formatted_time" with
  | .error err => .error err
  | .ok ft =>
  match jsonGet e "module_name" with
  | .error err => .error err
  | .ok mn =>
  match jsonGet e "event_type" with
  | .error err => .error err
  | .ok et =>
  let base : List (String × Json) :=
    [("timestamp", ts), ("formatted_time", ft), ("module_name", mn), ("event_type", et)]
  match eventDataFields e with
  | .error err => .error err
  | .ok extra => .ok (base ++ extra)

/-- The `for event in ...: events.append(...)` loop: maps the body over
the elements, stopping at the first exception. -/
def mapMExcept {α β : Type} (f : α → Except PyError β) : List α → Except PyError (List β)
  | [] => .ok []
  | x :: xs =>
    match f x with
    | .error e => .error e
    | .ok y =>
      match mapMExcept f xs with
      | .error e => .error e
      | .ok ys => .ok (y :: ys)

/-- Python iteration over `trace_data['events']` (line 73): a list yields
its elements, a dict its keys, a string its one-character substrings;
other values are not iterable and raise `TypeError`. -/
def iterEvents : Json → Except PyError (List (List (String × Json)))
  | .arr elems => mapMExcept parse_event_json elems
  | .obj fields => mapMExcept (fun kv => parse_event_json (.str kv.1)) fields
  | .str s => mapMExcept (fun c => parse_event_json (.str (String.mk [c]))) s.data
  | .null => .error (.typeError "not iterable")
  | .bool _ => .error (.typeError "not iterable")
  | .num _ => .error (.typeError "not iterable")

/-- `TraceParser.parse_events` at the JSON level (lines 67-89): the
`self.trace_data['events']` access (raising `KeyError('events')` when the
key is absent) followed by the parsing loop. -/
def parse_events_json (d : Json) : Except PyError (List (List (String × Json))) :=
  match jsonGet d "events" with
  | .error err => .error err
  | .ok evs => iterEvents evs

/-- Loading followed by parsing, the composite path the callers run
(`load_trace_data` then `parse_events`, trace_parser.py lines 56-89). -/
def load_and_parse (path : String) (input : LoadInput) :
    Except PyError (List (List (String × Json))) :=
  match load_trace_data path input with
  | .error err => .error err
  | .ok d => parse_events_json d

/-- Errors the loading stage owns: `FileNotFoundError` and the
`ValueError` for undecodable content.  The parsing stage never raises
either, which pins each of them to its loading cause. -/
def isLoadStageError : PyError → Bool
  | .fileNotFoundError _ => true
  | .valueError _ => true
  | _ => false

/-! ## Definitions transcribed from the spec's words

The two definitions below follow the specification text, not the code;
each claim comparing the code against the spec's wording names the code
definition and one of these side by side. -/

/-- The color table of spec §4.3, transcribed from the spec's words: the
operation-specific entry when the event type is one of the three known
ones and the operation has a specific entry; otherwise that event type's
default entry; the global gray for an unrecognized event type. -/
def specColorResolve (event_type : String) (operation : Option String) : String :=
  if event_type = "BUS_TRANSACTION" then
    if operation = some "READ" then "#3498db"
    else if operation = some "WRITE" then "#e74c3c"
    else "#9b59b6"
  else if event_type = "DEVICE_EVENT" then
    if operation = some "READ" then "#2ecc71"
    else if operation = some "WRITE" then "#f39c12"
    else if operation = some "RESET" then "#e67e22"
    else if operation = some "ENABLE" then "#1abc9c"
    else if operation = some "DISABLE" then "#95a5a6"
    else if operation = some "DEMO_EVENT" then "#f1c40f"
    else "#34495e"
  else if event_type = "IRQ_EVENT" then "#8e44ad"
  else "#7f7f7f"

/-- The claim's label rule, transcribed from its words: the field's key
with the `data_` prefix stripped (only a leading `data_` removed),
underscores replaced with spaces, and title-cased. -/
def stripLeading (pre s : String) : String :=
  if strStartsWith s pre then String.mk (s.data.drop pre.data.length) else s

/-- Hover text as the claim words it (spec §4.4), transcribed from the
claim, not the code: the three header lines, then one line per `data_*`
field present and non-null on the record, in the order the fields appear
on the record itself, each labelled with the key's `data_` prefix
stripped, underscores replaced with spaces and title-cased, and valued
with the field value coerced to its display string. -/
def specHoverTextRecordOrder (r : Record) : String :=
  String.intercalate "<br>" (hoverHeader r ++
    (r.data.filter (fun kv => notna (some kv.2))).map (fun kv =>
      "<b>" ++ pyTitle (pyReplace (stripLeading "data_" kv.1) "_" " ") ++ ":</b> "
        ++ pyStr kv.2))

/-- The amended claim's float-promotion condition, transcribed from its
words: a `data_*` column displays its integers in float form when every
cell of the column is an integer or a missing/null, and the column is
absent or null on at least one record of the dataset. -/
def specColumnFloat (records : List Record) (c : String) : Bool :=
  ((records.map (fun r => alookup c r.data)).all (fun o =>
      match o with
      | some (Value.vStr _) => false
      | some (Value.vBool _) => false
      | _ => true))
    && ((records.map (fun r => alookup c r.data)).any (fun o =>
      o == none || o == some Value.vNull))

/-- Hover text as the amended claim words it: the three header lines, then
one line per `data_*` column of the dataset (union of the records'
fields, in order of first appearance across the dataset) whose value is
present and non-null on this record; each label is the key with every
occurrence of `data_` removed, underscores replaced with spaces and
title-cased; each value is the cell as the DataFrame displays it —
an integer prints with a trailing `.0` when the column is
float-promoted (see `specColumnFloat`), every other value prints as the
stored scalar. -/
def specHoverTextColumnOrder (dataCols : List String) (records : List Record)
    (r : Record) : String :=
  String.intercalate "<br>" (hoverHeader r ++
    (dataCols.filter (fun c => notna (alookup c r.data))).map (fun c =>
      "<b>" ++ pyTitle (pyReplace (pyReplace c "data_" "") "_" " ") ++ ":</b> "
        ++ (match alookup c r.data with
            | some (Value.vInt n) =>
              if specColumnFloat records c then toString n ++ ".0" else toString n
            | some v => pyStr v
            | none => pyStr Value.vNull)))

/-! ## Concrete demo data for the witnesses -/

/-- Demo event 1: a bus read on UART0. -/
def demoE1 : RawEvent :=
  ⟨1, "00:00.1", "UART0", "BUS_TRANSACTION", some [("operation", .vStr "READ")]⟩

/-- Demo event 2: a device event on UART0. -/
def demoE2 : RawEvent :=
  ⟨2, "00:00.2", "UART0", "DEVICE_EVENT", some [("operation", .vStr "DEMO_EVENT")]⟩

/-- Demo event 3: a bus transaction on SPI1 with no payload. -/
def demoE3 : RawEvent :=
  ⟨3, "00:00.3", "SPI1", "BUS_TRANSACTION", none⟩

/-- A demo document whose `trace_info.total_events` (13) disagrees with
the length of its `events` array (3). -/
def demoDoc : TraceDoc := ⟨⟨13⟩, [demoE1, demoE2, demoE3]⟩

/-- The same events under a `trace_info` that claims 5 events. -/
def demoDocOtherTotal : TraceDoc := ⟨⟨5⟩, [demoE1, demoE2, demoE3]⟩

/-- The parsed demo records. -/
def demoRecords : List Record := parse_events demoDoc

/-- The enriched demo rows. -/
def demoEnriched : List Enriched := demoRecords.map (enrichRecord demoRecords)

/-- A fallback value for reading an `Except` result known to be `ok`. -/
def extractOk {α : Type} (dflt : α) : Except PyError α → α
  | .ok x => x
  | .error _ => dflt

/-- The demo summary statistics. -/
def demoSummary : SummaryStats :=
  extractOk ⟨0, [], [], ⟨"", "", 0⟩⟩ (create_summary_stats demoRecords)

/-- The demo timeline figure. -/
def demoFigure : List TraceSeries :=
  extractOk [] (create_timeline_figure demoRecords)

/-- First event of the hover-order example: its `event_data` introduces
the key `z`. -/
def hoverE1 : RawEvent := ⟨1, "t1", "M1", "DEVICE_EVENT", some [("z", .vInt 1)]⟩

/-- Second event of the hover-order example: its `event_data` lists
`len_data_bytes` before `z`, while the dataset met `z` first; the key
contains a second `data_` internally, and its column is missing on the
first record, so the frame promotes it to float64. -/
def hoverE2 : RawEvent :=
  ⟨2, "t2", "M2", "DEVICE_EVENT", some [("len_data_bytes", .vInt 2), ("z", .vInt 3)]⟩

/-- The hover-order example document. -/
def hoverDoc : TraceDoc := ⟨⟨2⟩, [hoverE1, hoverE2]⟩

/-- First event of the descending-timestamp example. -/
def negE1 : RawEvent := ⟨5, "00:00.5", "UART0", "IRQ_EVENT", none⟩

/-- Second event of the descending-timestamp example: an earlier
timestamp appearing later in the file. -/
def negE2 : RawEvent := ⟨2, "00:00.2", "UART0", "IRQ_EVENT", none⟩

/-- Two records with descending timestamps, for the negative-duration
witness. -/
def negDoc : TraceDoc := ⟨⟨2⟩, [negE1, negE2]⟩

/-- The parsed descending-timestamp records. -/
def negRecords : List Record := parse_events negDoc

/-- Their summary statistics. -/
def negSummary : SummaryStats :=
  extractOk ⟨0, [], [], ⟨"", "", 0⟩⟩ (create_summary_stats negRecords)

/-! ## Helper lemmas -/

theorem mem_firstSeenAux (x : String) :
    ∀ (l seen : List String), x ∈ firstSeenAux l seen ↔ x ∈ l ∧ x ∉ seen := by
  intro l
  induction l with
  | nil => intro seen; simp [firstSeenAux]
  | cons y ys ih =>
    intro seen
    rw [firstSeenAux]
    split
    · rename_i hy
      rw [ih]
      simp only [List.mem_cons]
      constructor
      · rintro ⟨h1, h2⟩
        exact ⟨Or.inr h1, h2⟩
      · rintro ⟨h1 | h1, h2⟩
        · subst h1; exact absurd hy h2
        · exact ⟨h1, h2⟩
    · rename_i hy
      simp only [List.mem_cons, ih, not_or]
      constructor
      · rintro (rfl | ⟨h1, ⟨h2, h3⟩⟩)
        · exact ⟨Or.inl rfl, hy⟩
        · exact ⟨Or.inr h1, h3⟩
      · rintro ⟨rfl | h1, h2⟩
        · exact Or.inl rfl
        · by_cases hxy : x = y
          · exact Or.inl hxy
          · exact Or.inr ⟨h1, hxy, h2⟩

theorem nodup_firstSeenAux : ∀ (l seen : List String), (firstSeenAux l seen).Nodup := by
  intro l
  induction l with
  | nil => intro seen; simp [firstSeenAux]
  | cons y ys ih =>
    intro seen
    rw [firstSeenAux]
    split
    · exact ih seen
    · refine List.nodup_cons.mpr ⟨?_, ih (y :: seen)⟩
      intro hmem
      exact ((mem_firstSeenAux y ys (y :: seen)).mp hmem).2 (List.mem_cons_self y seen)

theorem mem_firstSeen {x : String} {l : List String} : x ∈ firstSeen l ↔ x ∈ l := by
  rw [firstSeen, mem_firstSeenAux]
  simp

theorem nodup_firstSeen (l : List String) : (firstSeen l).Nodup := nodup_firstSeenAux l []

theorem toFinset_firstSeen (l : List String) : (firstSeen l).toFinset = l.toFinset := by
  ext x
  simp [List.mem_toFinset, mem_firstSeen]

theorem length_firstSeen (l : List String) : (firstSeen l).length = l.toFinset.card := by
  rw [← toFinset_firstSeen, List.toFinset_card_of_nodup (nodup_firstSeen l)]

theorem posIn_lt_length {u : List String} {x : String} (hx : x ∈ u) :
    posIn u x < u.length := by
  induction u with
  | nil => cases hx
  | cons y ys ih =>
    rw [posIn]
    split
    · simp
    · rename_i hne
      have hxys : x ∈ ys := by
        rcases List.mem_cons.mp hx with h | h
        · exact absurd h.symm hne
        · exact h
      exact Nat.succ_lt_succ (ih hxys)

theorem posIn_get : ∀ (u : List String), u.Nodup → ∀ (i : Nat) (h : i < u.length),
    posIn u (u.get ⟨i, h⟩) = i := by
  intro u
  induction u with
  | nil => intro _ i h; exact absurd h (Nat.not_lt_zero i)
  | cons y ys ih =>
    intro hnd i h
    cases i with
    | zero => simp [posIn, List.get]
    | succ j =>
      have hj : j < ys.length := Nat.lt_of_succ_lt_succ h
      have hget : (y :: ys).get ⟨j + 1, h⟩ = ys.get ⟨j, hj⟩ := rfl
      rw [hget, posIn]
      have hy : y ∉ ys := (List.nodup_cons.mp hnd).1
      have hne : y ≠ ys.get ⟨j, hj⟩ := by
        intro he
        exact hy (by rw [he]; exact List.get_mem ys j hj)
      rw [if_neg hne]
      exact congrArg (· + 1) (ih (List.nodup_cons.mp hnd).2 j hj)

theorem firstSeen_perm_dedup (l : List String) : List.Perm (firstSeen l) l.dedup := by
  apply List.perm_of_nodup_nodup_toFinset_eq (nodup_firstSeen l) (List.nodup_dedup l)
  rw [toFinset_firstSeen]
  ext x
  simp [List.mem_toFinset, List.mem_dedup]

theorem sum_counts_firstSeen (l : List String) :
    ((firstSeen l).map (fun v => l.count v)).sum = l.length := by
  rw [((firstSeen_perm_dedup l).map (fun v => l.count v)).sum_eq]
  exact List.sum_map_count_dedup_eq_length l

theorem filterMap_as_filter_map {α β : Type} (f : α → Option β) (p : α → Bool) (g : α → β)
    (hpt : ∀ a, f a = if p a then some (g a) else none) :
    ∀ l : List α, l.filterMap f = (l.filter p).map g := by
  intro l
  induction l with
  | nil => rfl
  | cons a t ih =>
    rw [List.filterMap_cons, List.filter_cons, hpt a]
    cases hpa : p a <;> simp [hpa, ih]

theorem prepare_data_ok {records : List Record} {enriched : List Enriched}
    (h : prepare_data records = .ok enriched) :
    enriched = records.map (enrichRecord records) := by
  cases records with
  | nil => simp [prepare_data] at h
  | cons r rest =>
    simp only [prepare_data, Except.ok.injEq] at h
    exact h.symm

theorem columnPromoted_eq_specColumnFloat (records : List Record) (c : String) :
    columnPromoted records c = specColumnFloat records c := by
  have hall : ∀ rs : List Record,
      rs.all (fun r => isIntOrNull ((alookup c r.data).getD Value.vNull))
        = (rs.map (fun r => alookup c r.data)).all (fun o =>
            match o with
            | some (Value.vStr _) => false
            | some (Value.vBool _) => false
            | _ => true) := by
    intro rs
    induction rs with
    | nil => rfl
    | cons r rest ih =>
      simp only [List.all_cons, List.map_cons]
      rw [ih]
      cases halk : alookup c r.data with
      | none => rfl
      | some v => cases v <;> rfl
  have hany : ∀ rs : List Record,
      rs.any (fun r => !notna (alookup c r.data))
        = (rs.map (fun r => alookup c r.data)).any (fun o =>
            o == none || o == some Value.vNull) := by
    intro rs
    induction rs with
    | nil => rfl
    | cons r rest ih =>
      simp only [List.any_cons, List.map_cons]
      rw [ih]
      cases halk : alookup c r.data with
      | none => rfl
      | some v => cases v <;> rfl
  unfold columnPromoted specColumnFloat
  rw [hall records, hany records]

theorem jsonGet_error_local (j : Json) (k : String) (e : PyError)
    (h : jsonGet j k = .error e) :
    isLoadStageError e = false ∧ ∀ k2, e = .keyError k2 → k2 = k := by
  cases j with
  | obj fields =>
    rw [jsonGet] at h
    cases halk : alookup k fields with
    | some v => rw [halk] at h; simp at h
    | none =>
      rw [halk] at h
      simp only [Except.error.injEq] at h
      subst h
      exact ⟨rfl, fun k2 hk => by simp only [PyError.keyError.injEq] at hk; exact hk.symm⟩
  | null =>
    rw [jsonGet] at h
    simp only [Except.error.injEq] at h
    subst h
    exact ⟨rfl, fun k2 hk => by simp at hk⟩
  | bool b =>
    rw [jsonGet] at h
    simp only [Except.error.injEq] at h
    subst h
    exact ⟨rfl, fun k2 hk => by simp at hk⟩
  | num q =>
    rw [jsonGet] at h
    simp only [Except.error.injEq] at h
    subst h
    exact ⟨rfl, fun k2 hk => by simp at hk⟩
  | str s =>
    rw [jsonGet] at h
    simp only [Except.error.injEq] at h
    subst h
    exact ⟨rfl, fun k2 hk => by simp at hk⟩
  | arr elems =>
    rw [jsonGet] at h
    simp only [Except.error.injEq] at h
    subst h
    exact ⟨rfl, fun k2 hk => by simp at hk⟩

theorem eventDataFields_error_shape (e : Json) (err : PyError)
    (h : eventDataFields e = .error err) : err = .attributeError "items" := by
  cases e with
  | obj fields =>
    rw [eventDataFields] at h
    cases halk : alookup "event_data" fields with
    | some v =>
      rw [halk] at h
      cases v <;> simp_all
    | none => rw [halk] at h; simp at h
  | null => simp [eventDataFields] at h
  | bool b => simp [eventDataFields] at h
  | num q => simp [eventDataFields] at h
  | str s => simp [eventDataFields] at h
  | arr elems => simp [eventDataFields] at h

theorem parse_event_json_error_local (ev : Json) (e : PyError)
    (h : parse_event_json ev = .error e) :
    isLoadStageError e = false ∧ e ≠ PyError.keyError "events" := by
  have himp : (isLoadStageError e = false ∧ ∀ k2, e = .keyError k2 → k2 ≠ "events") →
      isLoadStageError e = false ∧ e ≠ PyError.keyError "events" := by
    rintro ⟨h1, h2⟩
    exact ⟨h1, fun he => h2 "events" he rfl⟩
  rw [parse_event_json] at h
  cases h1 : jsonGet ev "timestamp" with
  | error e1 =>
    rw [h1] at h
    simp only [Except.error.injEq] at h
    subst h
    rcases jsonGet_error_local _ _ _ h1 with ⟨ha, hb⟩
    exact himp ⟨ha, fun k2 hk => by rw [hb k2 hk]; decide⟩
  | ok ts =>
    rw [h1] at h
    cases h2 : jsonGet ev "formatted_time" with
    | error e2 =>
      rw [h2] at h
      simp only [Except.error.injEq] at h
      subst h
      rcases jsonGet_error_local _ _ _ h2 with ⟨ha, hb⟩
      exact himp ⟨ha, fun k2 hk => by rw [hb k2 hk]; decide⟩
    | ok ft =>
      rw [h2] at h
      cases h3 : jsonGet ev "module_name" with
      | error e3 =>
        rw [h3] at h
        simp only [Except.error.injEq] at h
        subst h
        rcases jsonGet_error_local _ _ _ h3 with ⟨ha, hb⟩
        exact himp ⟨ha, fun k2 hk => by rw [hb k2 hk]; decide⟩
      | ok mn =>
        rw [h3] at h
        cases h4 : jsonGet ev "event_type" with
        | error e4 =>
          rw [h4] at h
          simp only [Except.error.injEq] at h
          subst h
          rcases jsonGet_error_local _ _ _ h4 with ⟨ha, hb⟩
          exact himp ⟨ha, fun k2 hk => by rw [hb k2 hk]; decide⟩
        | ok et =>
          rw [h4] at h
          cases h5 : eventDataFields ev with
          | error e5 =>
            rw [h5] at h
            simp only [Except.error.injEq] at h
            subst h
            rw [eventDataFields_error_shape _ _ h5]
            exact ⟨rfl, by decide⟩
          | ok extra => rw [h5] at h; simp at h

theorem mapMExcept_error {α β : Type} (f : α → Except PyError β) (l : List α) (e : PyError)
    (h : mapMExcept f l = .error e) : ∃ x ∈ l, f x = .error e := by
  induction l with
  | nil => simp [mapMExcept] at h
  | cons x xs ih =>
    rw [mapMExcept] at h
    cases h1 : f x with
    | error e1 =>
      rw [h1] at h
      simp only [Except.error.injEq] at h
      subst h
      exact ⟨x, List.mem_cons_self x xs, h1⟩
    | ok y =>
      rw [h1] at h
      cases h2 : mapMExcept f xs with
      | error e2 =>
        rw [h2] at h
        simp only [Except.error.injEq] at h
        subst h
        rcases ih h2 with ⟨x2, hx2, hfx2⟩
        exact ⟨x2, List.mem_cons_of_mem x hx2, hfx2⟩
      | ok ys => rw [h2] at h; simp at h

theorem iterEvents_error_local (j : Json) (e : PyError) (h : iterEvents j = .error e) :
    isLoadStageError e = false ∧ e ≠ PyError.keyError "events" := by
  cases j with
  | arr elems =>
    rcases mapMExcept_error _ _ _ h with ⟨x, _, hx⟩
    exact parse_event_json_error_local _ _ hx
  | obj fields =>
    rcases mapMExcept_error _ _ _ h with ⟨x, _, hx⟩
    exact parse_event_json_error_local _ _ hx
  | str s =>
    rcases mapMExcept_error _ _ _ h with ⟨x, _, hx⟩
    exact parse_event_json_error_local _ _ hx
  | null =>
    rw [iterEvents] at h
    simp only [Except.error.injEq] at h
    subst h
    exact ⟨rfl, by decide⟩
  | bool b =>
    rw [iterEvents] at h
    simp only [Except.error.injEq] at h
    subst h
    exact ⟨rfl, by decide⟩
  | num q =>
    rw [iterEvents] at h
    simp only [Except.error.injEq] at h
    subst h
    exact ⟨rfl, by decide⟩

theorem parse_events_json_error_local (d : Json) (e : PyError)
    (h : parse_events_json d = .error e) : isLoadStageError e = false := by
  rw [parse_events_json] at h
  cases h1 : jsonGet d "events" with
  | error e1 =>
    rw [h1] at h
    simp only [Except.error.injEq] at h
    subst h
    exact (jsonGet_error_local _ _ _ h1).1
  | ok evs =>
    rw [h1] at h
    exact (iterEvents_error_local _ _ h).1

theorem parse_events_json_missing_events (fields : List (String × Json)) :
    parse_events_json (.obj fields) = .error (.keyError "events")
      ↔ alookup "events" fields = none := by
  constructor
  · intro h
    rw [parse_events_json] at h
    cases h1 : jsonGet (.obj fields) "events" with
    | error e1 =>
      rw [jsonGet] at h1
      cases halk : alookup "events" fields with
      | some v => rw [halk] at h1; simp at h1
      | none => rfl
    | ok evs =>
      rw [h1] at h
      exact absurd rfl (iterEvents_error_local _ _ h).2
  · intro halk
    rw [parse_events_json, jsonGet, halk]

/-! ## Claim theorems -/

/-- Claim C1: for every valid input document, parsing produces exactly one
record per entry of the `events` array, and the result depends only on
the `events` array — two documents with the same events parse identically
whatever `trace_info.total_events` claims, so a mismatch between the
declared and actual counts is accepted silently, never corrected or
rejected. -/
theorem parse_count_ignores_declared_total (d : TraceDoc) :
    (parse_events d).length = d.events.length ∧
      ∀ d2 : TraceDoc, d.events = d2.events → parse_events d = parse_events d2 := by
  constructor
  · simp [parse_events]
  · intro d2 h
    simp [parse_events, h]

/-- Witness for C1: the demo document declares 13 events but carries 3;
parsing yields 3 records, and a document declaring 5 over the same events
parses identically. -/
theorem parse_count_ignores_declared_total_witness :
    (parse_events demoDoc).length = demoDoc.events.length ∧
      parse_events demoDoc = parse_events demoDocOtherTotal :=
  ⟨(parse_count_ignores_declared_total demoDoc).1,
   (parse_count_ignores_declared_total demoDoc).2 demoDocOtherTotal rfl⟩

/-- Claim C2: color resolution agrees with the fixed two-level table for
every `(event_type, operation)` pair — the operation-specific entry where
one exists, the event type's default entry when the operation is absent
or unlisted, and the global gray `#7f7f7f` for every unrecognized event
type. -/
theorem color_resolution_matches_table (event_type : String) (operation : Option String) :
    get_event_color event_type operation = specColorResolve event_type operation := by
  unfold get_event_color specColorResolve
  cases operation with
  | none =>
    by_cases h1 : event_type = "BUS_TRANSACTION" <;>
    by_cases h2 : event_type = "DEVICE_EVENT" <;>
    by_cases h3 : event_type = "IRQ_EVENT" <;>
    simp_all [alookup]
  | some s =>
    by_cases h1 : event_type = "BUS_TRANSACTION" <;>
    by_cases h2 : event_type = "DEVICE_EVENT" <;>
    by_cases h3 : event_type = "IRQ_EVENT" <;>
    by_cases hR : s = "READ" <;>
    by_cases hW : s = "WRITE" <;>
    by_cases hRe : s = "RESET" <;>
    by_cases hEn : s = "ENABLE" <;>
    by_cases hDi : s = "DISABLE" <;>
    by_cases hDe : s = "DEMO_EVENT" <;>
    by_cases hDf : s = "default" <;>
    by_cases hE : s = "" <;>
    simp_all [alookup]

/-- Claim C3: lane assignment reads every lane from the first-seen module
table — records sharing a module share a lane, the first record's module
gets lane 0, the i-th distinct module (in first-seen order, not
alphabetical) gets lane i, and the table is a function of the module
sequence alone, so re-running on identical input reproduces it. -/
theorem lane_assignment_first_seen_order (records : List Record) (enriched : List Enriched)
    (h : prepare_data records = .ok enriched) :
    (∀ e ∈ enriched, e.y_position = module_positions records e.record.module_name) ∧
    (∀ e1 ∈ enriched, ∀ e2 ∈ enriched,
        e1.record.module_name = e2.record.module_name → e1.y_position = e2.y_position) ∧
    (∀ r rest, records = r :: rest → module_positions records r.module_name = 0) ∧
    (∀ (i : Nat) (hi : i < (firstSeen (records.map Record.module_name)).length),
        module_positions records ((firstSeen (records.map Record.module_name)).get ⟨i, hi⟩)
          = i) ∧
    (∀ records2 : List Record,
        records2.map Record.module_name = records.map Record.module_name →
        module_positions records2 = module_positions records) := by
  have henr := prepare_data_ok h
  subst henr
  refine ⟨?_, ?_, ?_, ?_, ?_⟩
  · intro e he
    rcases List.mem_map.mp he with ⟨r, hr, rfl⟩
    rfl
  · intro e1 h1 e2 h2 hmod
    rcases List.mem_map.mp h1 with ⟨r1, hr1, rfl⟩
    rcases List.mem_map.mp h2 with ⟨r2, hr2, rfl⟩
    simp only [enrichRecord] at hmod ⊢
    rw [hmod]
  · rintro r rest rfl
    simp only [module_positions, List.map_cons, firstSeen, firstSeenAux]
    simp [posIn]
  · intro i hi
    exact posIn_get _ (nodup_firstSeen _) i hi
  · intro records2 hmap
    funext m
    simp only [module_positions, hmap]

/-- Witness for C3 at the demo records: the first record's module UART0
sits on lane 0. -/
theorem lane_assignment_first_seen_order_witness :
    module_positions demoRecords (parseEvent demoE1).module_name = 0 :=
  (lane_assignment_first_seen_order demoRecords demoEnriched rfl).2.2.1
    (parseEvent demoE1) [parseEvent demoE2, parseEvent demoE3] rfl

/-- Claim C4: the aggregator raises on an empty record sequence — the
empty DataFrame has no columns, so the first column access raises
`KeyError` (the failure the spec's taxonomy names `EmptyDatasetError`)
instead of returning zero/NaN statistics. -/
theorem aggregator_fails_on_empty_dataset :
    create_summary_stats ([] : List Record) = .error (.keyError "module_name") := rfl

/-- Claim C7: for every non-empty record sequence the summary's time span
takes `start`/`end` from the formatted times of the first and last record
in input order, and `duration` is exactly the last timestamp minus the
first — zero for a single record and negative whenever the last record's
timestamp precedes the first's. -/
theorem time_span_first_minus_last (r : Record) (rest : List Record) (s : SummaryStats)
    (h : create_summary_stats (r :: rest) = .ok s) :
    s.time_span.start = r.formatted_time ∧
    s.time_span.stop = (rest.getLastD r).formatted_time ∧
    s.time_span.duration = (rest.getLastD r).timestamp - r.timestamp ∧
    (rest = [] → s.time_span.duration = 0) ∧
    ((rest.getLastD r).timestamp < r.timestamp → s.time_span.duration < 0) := by
  simp only [create_summary_stats, prepare_data, Except.ok.injEq] at h
  subst h
  refine ⟨rfl, rfl, rfl, ?_, ?_⟩
  · rintro rfl
    simp
  · intro hlt
    simpa using sub_neg.mpr hlt

/-- Witness for C7 on a file whose two records carry descending
timestamps: the computed duration is negative. -/
theorem time_span_first_minus_last_witness : negSummary.time_span.duration < 0 :=
  (time_span_first_minus_last (parseEvent negE1) [parseEvent negE2] negSummary rfl).2.2.2.2
    (by decide)

/-- Claim C9: after enrichment of a non-empty record sequence every lane
index is below the number of distinct modules, and the set of assigned
lanes is exactly the contiguous range 0..m-1 where m is the number of
distinct `module_name` values. -/
theorem lanes_cover_exact_range (records : List Record) (enriched : List Enriched)
    (h : prepare_data records = .ok enriched) :
    (∀ e ∈ enriched, e.y_position < (records.map Record.module_name).toFinset.card) ∧
    (enriched.map Enriched.y_position).toFinset
      = Finset.range ((records.map Record.module_name).toFinset.card) := by
  have henr := prepare_data_ok h
  subst henr
  have hlen : (firstSeen (records.map Record.module_name)).length
      = (records.map Record.module_name).toFinset.card :=
    length_firstSeen (records.map Record.module_name)
  have hmemlt : ∀ e ∈ records.map (enrichRecord records),
      e.y_position < (records.map Record.module_name).toFinset.card := by
    intro e he
    rcases List.mem_map.mp he with ⟨r, hr, rfl⟩
    show module_positions records r.module_name < _
    rw [← hlen, module_positions]
    apply posIn_lt_length
    rw [mem_firstSeen]
    exact List.mem_map_of_mem Record.module_name hr
  refine ⟨hmemlt, ?_⟩
  ext i
  simp only [List.mem_toFinset, Finset.mem_range, List.mem_map]
  constructor
  · rintro ⟨e, ⟨rr, hrr, rfl⟩, rfl⟩
    exact hmemlt _ (List.mem_map_of_mem _ hrr)
  · intro hi
    rw [← hlen] at hi
    have hxL : (firstSeen (records.map Record.module_name)).get ⟨i, hi⟩
        ∈ records.map Record.module_name :=
      mem_firstSeen.mp (List.get_mem _ i hi)
    rcases List.mem_map.mp hxL with ⟨r, hr, hxr⟩
    refine ⟨enrichRecord records r, ⟨r, hr, rfl⟩, ?_⟩
    show module_positions records r.module_name = i
    rw [module_positions, hxr]
    exact posIn_get _ (nodup_firstSeen _) i hi

/-- Witness for C9 at the demo records: two distinct modules, lanes
exactly the range below 2. -/
theorem lanes_cover_exact_range_witness :
    (demoEnriched.map Enriched.y_position).toFinset
      = Finset.range ((demoRecords.map Record.module_name).toFinset.card) :=
  (lanes_cover_exact_range demoRecords demoEnriched rfl).2

/-- Claim C10: the summary statistics are conservative — the per-type
counts and the per-module counts each sum to `totalEvents`, which equals
the number of records. -/
theorem summary_counts_conservative (records : List Record) (s : SummaryStats)
    (h : create_summary_stats records = .ok s) :
    (s.event_types.map Prod.snd).sum = s.total_events ∧
    (s.modules.map Prod.snd).sum = s.total_events ∧
    s.total_events = records.length := by
  cases records with
  | nil => simp [create_summary_stats, prepare_data] at h
  | cons r rest =>
    simp only [create_summary_stats, prepare_data, Except.ok.injEq] at h
    subst h
    refine ⟨?_, ?_, rfl⟩
    · show ((value_counts ((r :: rest).map Record.event_type)).map Prod.snd).sum
        = (r :: rest).length
      rw [value_counts, List.map_map]
      rw [show (Prod.snd ∘ fun v => (v, ((r :: rest).map Record.event_type).count v))
          = fun v => ((r :: rest).map Record.event_type).count v from rfl]
      rw [sum_counts_firstSeen, List.length_map]
    · show ((value_counts ((r :: rest).map Record.module_name)).map Prod.snd).sum
        = (r :: rest).length
      rw [value_counts, List.map_map]
      rw [show (Prod.snd ∘ fun v => (v, ((r :: rest).map Record.module_name).count v))
          = fun v => ((r :: rest).map Record.module_name).count v from rfl]
      rw [sum_counts_firstSeen, List.length_map]

/-- Witness for C10 at the demo records (3 records, two event types, two
modules). -/
theorem summary_counts_conservative_witness :
    (demoSummary.event_types.map Prod.snd).sum = demoSummary.total_events ∧
    (demoSummary.modules.map Prod.snd).sum = demoSummary.total_events ∧
    demoSummary.total_events = demoRecords.length :=
  summary_counts_conservative demoRecords demoSummary rfl

/-- Claim C8: the figure holds exactly one series per distinct event type
in first-seen order (names in table order and without repetition), each
series carries precisely the enriched rows of its type mapped to points
(x = timestamp, y = lane, color, hover text), every row's point lies in
the series named after its event type, and the point counts sum to the
record count — nothing aggregated, smoothed or dropped. -/
theorem figure_partitions_by_event_type (records : List Record) (enriched : List Enriched)
    (fig : List TraceSeries) (hp : prepare_data records = .ok enriched)
    (hf : create_timeline_figure records = .ok fig) :
    fig.map TraceSeries.name = firstSeen (enriched.map (fun e => e.record.event_type)) ∧
    (fig.map TraceSeries.name).Nodup ∧
    (∀ sr ∈ fig, sr.points
        = (enriched.filter (fun e => e.record.event_type == sr.name)).map pointOf) ∧
    (∀ e ∈ enriched, ∃ sr ∈ fig,
        sr.name = e.record.event_type ∧ pointOf e ∈ sr.points) ∧
    (fig.map (fun sr => sr.points.length)).sum = records.length := by
  unfold create_timeline_figure at hf
  rw [hp] at hf
  simp only [Except.ok.injEq] at hf
  subst hf
  have hlenrec : enriched.length = records.length := by
    rw [prepare_data_ok hp, List.length_map]
  have hname : (TraceSeries.name ∘ fun et =>
      TraceSeries.mk et ((enriched.filter
        (fun e => e.record.event_type == et)).map pointOf)) = id := rfl
  refine ⟨?_, ?_, ?_, ?_, ?_⟩
  · rw [List.map_map, hname, List.map_id]
  · rw [List.map_map, hname, List.map_id]
    exact nodup_firstSeen (enriched.map (fun e => e.record.event_type))
  · intro sr hsr
    rcases List.mem_map.mp hsr with ⟨et, het, rfl⟩
    rfl
  · intro e he
    have h1 : e.record.event_type ∈ enriched.map (fun e2 => e2.record.event_type) :=
      List.mem_map_of_mem _ he
    have h2 : e.record.event_type
        ∈ firstSeen (enriched.map (fun e2 => e2.record.event_type)) :=
      mem_firstSeen.mpr h1
    refine ⟨_, List.mem_map_of_mem _ h2, rfl, ?_⟩
    apply List.mem_map_of_mem
    apply List.mem_filter.mpr
    exact ⟨he, by simp⟩
  · rw [List.map_map]
    have hone : ∀ et,
        ((fun sr => sr.points.length) ∘ fun et2 =>
          TraceSeries.mk et2 ((enriched.filter
            (fun e => e.record.event_type == et2)).map pointOf)) et
        = (enriched.map (fun e => e.record.event_type)).count et := by
      intro et
      simp only [Function.comp]
      rw [List.length_map, List.count_eq_countP, List.countP_map]
      rw [← List.countP_eq_length_filter]
      rfl
    rw [List.map_congr_left (fun et _ => hone et), sum_counts_firstSeen, List.length_map,
      hlenrec]

/-- Witness for C8 at the demo figure: two series, three points in total
over three records. -/
theorem figure_partitions_by_event_type_witness :
    (demoFigure.map (fun sr => sr.points.length)).sum = demoRecords.length :=
  (figure_partitions_by_event_type demoRecords demoEnriched demoFigure rfl rfl).2.2.2.2

/-- Counterexample for C6: in `hoverDoc` the dataset meets field `z`
(record 1) before field `len_data_bytes` (record 2), so the DataFrame's
columns run `data_z`, `data_len_data_bytes`, and three clauses of the
claim fail at record 2: the code lists the `z` line before the
`len_data_bytes` line while record 2's own `event_data` lists
`len_data_bytes` first; the code's label is `Len Bytes` (Python's
`replace` removes every occurrence of `data_`) while the claimed
prefix-strip gives `Len Data Bytes`; and the code displays `2.0` (the
column, missing on record 1, is float64-promoted) while the claimed
coercion of the stored value gives `2`.  The claim's wording (transcribed
as `specHoverTextRecordOrder`) does not match what the code produces. -/
theorem hover_record_order_counterexample :
    create_hover_text (dfColumns (parse_events hoverDoc))
        (columnPromoted (parse_events hoverDoc)) (parseEvent hoverE2)
      ≠ specHoverTextRecordOrder (parseEvent hoverE2) := by decide

/-- Claim C6 (amended): for every record of a parsed dataset, the hover
text is the fixed three-line header followed by one line per `data_*`
column of the dataset — in the dataset's column order (order of first
appearance of each field across all records), not the record's own field
order — restricted to the fields present and non-null on the record; each
label is the key with every occurrence of `data_` removed (not only the
leading one), underscores replaced with spaces and title-cased; each
value is the cell as the DataFrame displays it, an integer printing with
a trailing `.0` when its column is absent or null somewhere in the
dataset and carries no string or boolean cell; absent or null fields
produce no line. -/
theorem hover_lines_in_dataset_column_order (d : TraceDoc) (r : Record)
    (hr : r ∈ parse_events d) :
    create_hover_text (dfColumns (parse_events d)) (columnPromoted (parse_events d)) r
      = specHoverTextColumnOrder (dataColumns (parse_events d)) (parse_events d) r := by
  have hstarts : ∀ c ∈ dataColumns (parse_events d), strStartsWith c "data_" = true := by
    intro c hc
    have hc2 : c ∈ ((parse_events d).map (fun r2 => r2.data.map Prod.fst)).flatten :=
      mem_firstSeen.mp hc
    rcases List.mem_flatten.mp hc2 with ⟨lk, hlk, hclk⟩
    rcases List.mem_map.mp hlk with ⟨r2, hr2, rfl⟩
    rcases List.mem_map.mp hclk with ⟨kv, hkv, rfl⟩
    rcases List.mem_map.mp hr2 with ⟨e, he, rfl⟩
    rcases List.mem_map.mp hkv with ⟨kv0, hkv0, rfl⟩
    show ("data_".data).isPrefixOf (("data_" ++ kv0.1).data) = true
    rw [String.data_append]
    exact List.isPrefixOf_iff_prefix.mpr (List.prefix_append _ _)
  have hA : (dfColumns (parse_events d)).filter (fun c => strStartsWith c "data_")
      = dataColumns (parse_events d) := by
    rw [dfColumns, List.filter_append, List.filter_append]
    rw [show ((["timestamp", "formatted_time", "module_name", "event_type"] :
        List String).filter (fun c => strStartsWith c "data_")) = [] from rfl]
    rw [show ((["y_position", "color"] : List String).filter
        (fun c => strStartsWith c "data_")) = [] from rfl]
    rw [List.filter_eq_self.mpr hstarts]
    simp
  have hpt : ∀ c, (match alookup c r.data with
      | some v => if notna (some v) then
          some (hoverLine (columnPromoted (parse_events d) c) c v) else none
      | none => none)
      = if notna (alookup c r.data) then
          some ("<b>" ++ pyTitle (pyReplace (pyReplace c "data_" "") "_" " ") ++ ":</b> "
            ++ (match alookup c r.data with
                | some (Value.vInt n) =>
                  if specColumnFloat (parse_events d) c then toString n ++ ".0"
                  else toString n
                | some v => pyStr v
                | none => pyStr Value.vNull)) else none := by
    intro c
    cases hl : alookup c r.data with
    | none => simp [notna]
    | some v =>
      cases v <;>
        simp [notna, hoverLine, hoverLabel, pyStrCell,
          columnPromoted_eq_specColumnFloat (parse_events d) c]
  rw [create_hover_text, specHoverTextColumnOrder, hA]
  exact congrArg (String.intercalate "<br>")
    (congrArg (hoverHeader r ++ ·)
      (filterMap_as_filter_map _ _ _ hpt (dataColumns (parse_events d))))

/-- Witness for the amended C6 at the hover-order example's second
record. -/
theorem hover_lines_in_dataset_column_order_witness :
    create_hover_text (dfColumns (parse_events hoverDoc))
        (columnPromoted (parse_events hoverDoc)) (parseEvent hoverE2)
      = specHoverTextColumnOrder (dataColumns (parse_events hoverDoc))
          (parse_events hoverDoc) (parseEvent hoverE2) :=
  hover_lines_in_dataset_column_order hoverDoc (parseEvent hoverE2) (by decide)

/-- Claim C5: loading fails with `FileNotFoundError` (the spec's
`NotFoundError`) exactly when the path does not exist; it fails with the
`ValueError` raised for undecodable content (the spec's `FormatError` for
invalid structured data) exactly when the content is not valid JSON; a
loaded object document makes the pipeline fail with `KeyError('events')`
(the spec's `FormatError` for a missing `events` key) exactly when the
document lacks the `events` key; and otherwise loading returns the decoded
document unchanged — no partial load. -/
theorem load_error_taxonomy (path : String) (input : LoadInput) :
    ((∃ msg, load_and_parse path input = .error (.fileNotFoundError msg))
        ↔ input = .fileMissing) ∧
    ((∃ msg, load_and_parse path input = .error (.valueError msg))
        ↔ input = .invalidJson) ∧
    (∀ fields, input = .content (.obj fields) →
        (load_and_parse path input = .error (.keyError "events")
          ↔ alookup "events" fields = none)) ∧
    (∀ doc, input = .content doc → load_trace_data path input = .ok doc) := by
  refine ⟨?_, ?_, ?_, ?_⟩
  · constructor
    · rintro ⟨msg, hmsg⟩
      cases input with
      | fileMissing => rfl
      | invalidJson => simp [load_and_parse, load_trace_data] at hmsg
      | content d =>
        simp only [load_and_parse, load_trace_data] at hmsg
        have := parse_events_json_error_local _ _ hmsg
        simp [isLoadStageError] at this
    · rintro rfl
      exact ⟨_, rfl⟩
  · constructor
    · rintro ⟨msg, hmsg⟩
      cases input with
      | fileMissing => simp [load_and_parse, load_trace_data] at hmsg
      | invalidJson => rfl
      | content d =>
        simp only [load_and_parse, load_trace_data] at hmsg
        have := parse_events_json_error_local _ _ hmsg
        simp [isLoadStageError] at this
    · rintro rfl
      exact ⟨_, rfl⟩
  · rintro fields rfl
    simp only [load_and_parse, load_trace_data]
    exact parse_events_json_missing_events fields
  · rintro doc rfl
    rfl

/-- Witness for C5: a decoded object document with `trace_info` but no
`events` key makes the pipeline fail with `KeyError('events')`. -/
theorem load_error_taxonomy_witness :
    load_and_parse "trace.json" (.content (.obj [("trace_info", .num 13)]))
      = .error (.keyError "events") :=
  ((load_error_taxonomy "trace.json"
      (.content (.obj [("trace_info", .num 13)]))).2.2.1
    [("trace_info", .num 13)] rfl).mpr rfl
